import Mathlib

/-!
Shallow embedding of the OpenShot bootstrap sequencer, `src/launch.py`.

The file models the module-level initialization (the sentry tracing call and
the global `app = None` holder) and the body of `main()`: argument effects are
applied in the source's order (version exit, debug log levels, language
listing, `--path` loop, model-test flag, web backend, language validation,
module-origin print, application construction).  The pieces of the repository
that `launch.py` imports (`classes.info`, `classes.app`, the OS path calls)
are modelled as an explicit environment record: `info`'s module-level
variables become fields of `InfoState`, `os.path.realpath` / `os.path.exists`
and the `OpenShotApp` constructor become function fields of `Env`.
-/

namespace LaunchPy

/-- The module-level variables of `classes.info` that `launch.py` reads or
assigns: log levels, the model-test flag, web backend, the command-line
language override, the supported-language collection, the module path and the
version string from `SETUP`. -/
structure InfoState where
  LOG_LEVEL_FILE : String
  LOG_LEVEL_CONSOLE : String
  MODEL_TEST : Bool
  WEB_BACKEND : String
  CMDLINE_LANGUAGE : Option String
  SUPPORTED_LANGUAGES : List String
  PATH : String
  version : String
  deriving Repr, DecidableEq

/-- The argparse result `args` of `launch.py`: one field per registered
option, with argparse's defaults (`store_true` gives `false`, `append` gives
`None`, `--web-backend` defaults to the string `auto`, `--lang` to `None`,
`remain` collects the REMAINDER positionals). -/
structure Args where
  lang : Option String := none
  list_languages : Bool := false
  py_path : Option (List String) := none
  modeltest : Bool := false
  web_backend : String := "auto"
  debug : Bool := false
  debug_file : Bool := false
  debug_console : Bool := false
  version : Bool := false
  remain : List String := []
  deriving Repr, DecidableEq

/-- The process environment `launch.py` runs in: the `classes.info` state at
entry, `sys.argv[0]`, the `sys.path` list, the `QT_LOGGING_RULES` environment
variable, the language catalog behind `get_all_languages()`, the behaviour of
`os.path.realpath` (`none` models a `TypeError` raised during resolution) and
`os.path.exists`, whether `OpenShotApp(argv)` construction succeeds, and the
event loop result `app.exec_()`. -/
structure Env where
  info : InfoState
  sysArgv0 : String
  sysPath : List String
  qtLoggingRules : Option String
  languages : List (String × String)
  realpath : String → Option String
  pathExists : String → Bool
  construct_ok : List String → Bool
  execCode : Int

/-- How a run of `main()` ends: `exited c` is a `sys.exit` on an early branch,
`launched argv c` means `OpenShotApp(argv)` was constructed and the process
exits with the event loop code `c`, `raised e` means an exception of class `e`
escapes `main()` uncaught. -/
inductive Outcome where
  | exited : Int → Outcome
  | launched : List String → Int → Outcome
  | raised : String → Outcome
  deriving Repr, DecidableEq

/-- Everything observable about one run of `main()`: the final `classes.info`
state, the final `sys.path`, the final `QT_LOGGING_RULES` value, the lines
printed to stdout in order, and how the run ended. -/
structure MainResult where
  info : InfoState
  sysPath : List String
  qtLoggingRules : Option String
  printed : List String
  outcome : Outcome
  deriving Repr, DecidableEq

/-- The single-quote character, `chr(39)`. -/
def sq : String := String.mk [Char.ofNat 39]

/-- Python truthiness of an optional string (`if args.lang:`): `None` and the
empty string are falsy. -/
def optTruthy : Option String → Bool
  | none => false
  | some s => !s.isEmpty

/-- One iteration of the `--path` loop body (launch.py lines 148-157): resolve
the entry with `os.path.realpath`; on success insert the resolved path at the
front of `sys.path` when it exists, else print a missing-path line naming the
resolved path; when resolution raises `TypeError`, print a bad-path line
naming the entry as given and continue.  Returns the new `sys.path` and the
lines this iteration printed. -/
def processPathEntry (env : Env) (path : List String) (p : String) :
    List String × List String :=
  match env.realpath p with
  | none => (path, ["Bad path " ++ p ++ ": TypeError"])
  | some rp =>
      if env.pathExists rp then
        (rp :: path, ["Added " ++ rp ++ " to PYTHONPATH"])
      else
        (path, [rp ++ " does not exist"])

/-- The whole `for p in args.py_path` loop: iterate `processPathEntry` left to
right, threading `sys.path` and concatenating the printed lines. -/
def processPaths (env : Env) : List String → List String → List String × List String
  | [], path0 => (path0, [])
  | p :: rest, path0 =>
      let step := processPathEntry env path0 p
      let r := processPaths env rest step.1
      (r.1, step.2 ++ r.2)

/-- The diagnostic printed for an unsupported `--lang` code
(launch.py line 170). -/
def unsupportedLangMsg (l : String) : String :=
  "Unsupported language " ++ sq ++ l ++ sq ++ "! (See --list-languages)"

/-- One line of the `--list-languages` output, `"  {:>12}  {}"`: the code
right-aligned to width 12. -/
def fmtLanguage (cl : String × String) : String :=
  "  " ++ String.mk (List.replicate (12 - cl.1.length) ' ') ++ cl.1 ++ "  " ++ cl.2

/-- The argv handed to `OpenShotApp` (launch.py lines 179-181):
`[sys.argv[0]]` extended by the extra (unparsed) arguments and then by the
REMAINDER positionals. -/
def buildArgv (argv0 : String) (extraArgs remain : List String) : List String :=
  argv0 :: (extraArgs ++ remain)

/-- The construction block (launch.py lines 182-185) and what follows it.  If
`OpenShotApp(argv)` succeeds, the run proceeds through the identity setup and
`app.gui()` into `sys.exit(app.exec_())`.  If the constructor raises, the
`except` clause runs `app.show_errors()`; the assignment on line 183 never
happened, so the global `app` still holds the `None` it was given on line 83,
and the attribute access on `None` raises `AttributeError`, which propagates
out of `main()` uncaught. -/
def constructionStep (env : Env) (argv : List String) : Outcome :=
  if env.construct_ok argv then
    Outcome.launched argv env.execCode
  else
    Outcome.raised "AttributeError"

/-- The tail of `main()` shared by every path that reaches application
construction: print the module-load origin (line 174) and run the
construction block on `buildArgv`. -/
def finishLaunch (env : Env) (i : InfoState) (path : List String)
    (qlr : Option String) (prints : List String)
    (extraArgs remain : List String) : MainResult :=
  { info := i, sysPath := path, qtLoggingRules := qlr,
    printed := prints ++ ["Loaded modules from: " ++ i.PATH],
    outcome := constructionStep env (buildArgv env.sysArgv0 extraArgs remain) }

/-- The `--path` entries iterated by `main()`: `if args.py_path:` guards the
loop, and a `None` (or empty) value yields no iterations. -/
def pyPathsOf (args : Args) : List String :=
  match args.py_path with
  | none => []
  | some ps => ps

/-- Lines 134-138: `--debug` (or the channel-specific flag) raises the
channel's log level to DEBUG; other `info` fields are untouched. -/
def applyDebug (args : Args) (i : InfoState) : InfoState :=
  { i with
    LOG_LEVEL_FILE :=
      if args.debug || args.debug_file then "DEBUG" else i.LOG_LEVEL_FILE,
    LOG_LEVEL_CONSOLE :=
      if args.debug || args.debug_console then "DEBUG" else i.LOG_LEVEL_CONSOLE }

/-- Line 160: `--test-models` sets `info.MODEL_TEST`. -/
def applyModelTest (args : Args) (i : InfoState) : InfoState :=
  if args.modeltest then { i with MODEL_TEST := true } else i

/-- Lines 161-163: with `--test-models`, default `QT_LOGGING_RULES` only when
the variable is unset. -/
def applyQtRules (args : Args) (env : Env) : Option String :=
  if args.modeltest && env.qtLoggingRules.isNone then some "qt.modeltest.debug=true"
  else env.qtLoggingRules

/-- Lines 164-165: a truthy `--web-backend` value is stored lower-cased. -/
def applyWebBackend (args : Args) (i : InfoState) : InfoState :=
  if !args.web_backend.isEmpty then { i with WEB_BACKEND := args.web_backend.toLower }
  else i

/-- The `if args.lang:` block (launch.py lines 166-171) and the rest of
`main()`: a truthy `--lang` value is checked against `SUPPORTED_LANGUAGES`;
on success it is stored in `CMDLINE_LANGUAGE` and the run proceeds to
construction, on failure the run prints the diagnostic and exits with code
-1; an absent (or empty) value skips straight to construction. -/
def applyLang (env : Env) (args : Args) (extraArgs : List String)
    (i : InfoState) (path : List String) (qlr : Option String)
    (prints : List String) : MainResult :=
  if optTruthy args.lang then
    if (args.lang).getD "" ∈ i.SUPPORTED_LANGUAGES then
      finishLaunch env { i with CMDLINE_LANGUAGE := some ((args.lang).getD "") }
        path qlr prints extraArgs args.remain
    else
      { info := i, sysPath := path, qtLoggingRules := qlr,
        printed := prints ++ [unsupportedLangMsg ((args.lang).getD "")],
        outcome := Outcome.exited (-1) }
  else finishLaunch env i path qlr prints extraArgs args.remain

/-- The body of `main()` after `parser.parse_known_args()`, as a function of
the environment, the parsed `args` and the unrecognized `extra_args`.
Branches mirror the source in order: `args.version` prints the version and
exits 0 (`sys.exit()` with no argument); the debug flags raise the channel log
levels; `args.list_languages` prints the catalog and exits 0; the `--path`
loop extends `sys.path`; `args.modeltest` sets the flag and defaults
`QT_LOGGING_RULES` only when unset; `args.web_backend` is stored lower-cased;
a truthy `args.lang` is validated against `SUPPORTED_LANGUAGES`, assigned on
success and fatal with exit code -1 otherwise; then the run constructs the
application. -/
def main (env : Env) (args : Args) (extraArgs : List String) : MainResult :=
  if args.version then
    { info := env.info, sysPath := env.sysPath, qtLoggingRules := env.qtLoggingRules,
      printed := [env.info.version], outcome := Outcome.exited 0 }
  else
    let i1 := applyDebug args env.info
    if args.list_languages then
      { info := i1, sysPath := env.sysPath, qtLoggingRules := env.qtLoggingRules,
        printed := "Supported Languages:" :: env.languages.map fmtLanguage,
        outcome := Outcome.exited 0 }
    else
      let pp := processPaths env (pyPathsOf args) env.sysPath
      let i3 := applyWebBackend args (applyModelTest args i1)
      applyLang env args extraArgs i3 pp.1 (applyQtRules args env) pp.2

/-- A whole-process run of `launch.py`: importing the module first runs
`exceptions.init_sentry_tracing()` (line 80), unconditionally and before
`main()` parses anything; the record counts those calls next to the `main()`
result. -/
structure RunResult where
  sentryTracingCalls : Nat
  result : MainResult
  deriving Repr, DecidableEq

/-- `python launch.py ...`: module import performs the one tracing call, then
`main()` runs. -/
def processRun (env : Env) (args : Args) (extraArgs : List String) : RunResult :=
  { sentryTracingCalls := 1, result := main env args extraArgs }

/-! Concrete fixture environments used by witnesses and counterexamples. -/

/-- A concrete `classes.info` state at process entry. -/
def exInfo : InfoState :=
  { LOG_LEVEL_FILE := "INFO", LOG_LEVEL_CONSOLE := "INFO", MODEL_TEST := false,
    WEB_BACKEND := "auto", CMDLINE_LANGUAGE := none,
    SUPPORTED_LANGUAGES := ["en_US", "fr_FR"], PATH := "/usr/lib/openshot",
    version := "2.4.4" }

/-- A concrete environment: resolution prefixes `/abs/` (as `os.path.realpath`
turns a relative path into an absolute one), every directory exists, and
`OpenShotApp` construction succeeds. -/
def exEnv : Env :=
  { info := exInfo, sysArgv0 := "launch.py", sysPath := ["/base1", "/base2"],
    qtLoggingRules := none,
    languages := [("en_US", "English"), ("fr_FR", "French")],
    realpath := fun p => some ("/abs/" ++ p),
    pathExists := fun _ => true,
    construct_ok := fun _ => true, execCode := 0 }

/-! Projection lemmas for the configuration phases, shared by the claim
proofs. -/

@[simp]
theorem applyDebug_log_file (args : Args) (i : InfoState) :
    (applyDebug args i).LOG_LEVEL_FILE =
      if args.debug || args.debug_file then "DEBUG" else i.LOG_LEVEL_FILE := rfl

@[simp]
theorem applyDebug_log_console (args : Args) (i : InfoState) :
    (applyDebug args i).LOG_LEVEL_CONSOLE =
      if args.debug || args.debug_console then "DEBUG" else i.LOG_LEVEL_CONSOLE := rfl

@[simp]
theorem applyDebug_model_test (args : Args) (i : InfoState) :
    (applyDebug args i).MODEL_TEST = i.MODEL_TEST := rfl

@[simp]
theorem applyDebug_web_backend (args : Args) (i : InfoState) :
    (applyDebug args i).WEB_BACKEND = i.WEB_BACKEND := rfl

@[simp]
theorem applyDebug_cmdline_language (args : Args) (i : InfoState) :
    (applyDebug args i).CMDLINE_LANGUAGE = i.CMDLINE_LANGUAGE := rfl

@[simp]
theorem applyDebug_supported (args : Args) (i : InfoState) :
    (applyDebug args i).SUPPORTED_LANGUAGES = i.SUPPORTED_LANGUAGES := rfl

@[simp]
theorem applyDebug_path_field (args : Args) (i : InfoState) :
    (applyDebug args i).PATH = i.PATH := rfl

@[simp]
theorem applyModelTest_log_file (args : Args) (i : InfoState) :
    (applyModelTest args i).LOG_LEVEL_FILE = i.LOG_LEVEL_FILE := by
  unfold applyModelTest; split_ifs <;> rfl

@[simp]
theorem applyModelTest_log_console (args : Args) (i : InfoState) :
    (applyModelTest args i).LOG_LEVEL_CONSOLE = i.LOG_LEVEL_CONSOLE := by
  unfold applyModelTest; split_ifs <;> rfl

@[simp]
theorem applyModelTest_model_test (args : Args) (i : InfoState) :
    (applyModelTest args i).MODEL_TEST = (args.modeltest || i.MODEL_TEST) := by
  unfold applyModelTest; split_ifs <;> simp_all

@[simp]
theorem applyModelTest_web_backend (args : Args) (i : InfoState) :
    (applyModelTest args i).WEB_BACKEND = i.WEB_BACKEND := by
  unfold applyModelTest; split_ifs <;> rfl

@[simp]
theorem applyModelTest_cmdline_language (args : Args) (i : InfoState) :
    (applyModelTest args i).CMDLINE_LANGUAGE = i.CMDLINE_LANGUAGE := by
  unfold applyModelTest; split_ifs <;> rfl

@[simp]
theorem applyModelTest_supported (args : Args) (i : InfoState) :
    (applyModelTest args i).SUPPORTED_LANGUAGES = i.SUPPORTED_LANGUAGES := by
  unfold applyModelTest; split_ifs <;> rfl

@[simp]
theorem applyModelTest_path_field (args : Args) (i : InfoState) :
    (applyModelTest args i).PATH = i.PATH := by
  unfold applyModelTest; split_ifs <;> rfl

@[simp]
theorem applyWebBackend_log_file (args : Args) (i : InfoState) :
    (applyWebBackend args i).LOG_LEVEL_FILE = i.LOG_LEVEL_FILE := by
  unfold applyWebBackend; split_ifs <;> rfl

@[simp]
theorem applyWebBackend_log_console (args : Args) (i : InfoState) :
    (applyWebBackend args i).LOG_LEVEL_CONSOLE = i.LOG_LEVEL_CONSOLE := by
  unfold applyWebBackend; split_ifs <;> rfl

@[simp]
theorem applyWebBackend_model_test (args : Args) (i : InfoState) :
    (applyWebBackend args i).MODEL_TEST = i.MODEL_TEST := by
  unfold applyWebBackend; split_ifs <;> rfl

@[simp]
theorem applyWebBackend_cmdline_language (args : Args) (i : InfoState) :
    (applyWebBackend args i).CMDLINE_LANGUAGE = i.CMDLINE_LANGUAGE := by
  unfold applyWebBackend; split_ifs <;> rfl

@[simp]
theorem applyWebBackend_supported (args : Args) (i : InfoState) :
    (applyWebBackend args i).SUPPORTED_LANGUAGES = i.SUPPORTED_LANGUAGES := by
  unfold applyWebBackend; split_ifs <;> rfl

@[simp]
theorem applyWebBackend_path_field (args : Args) (i : InfoState) :
    (applyWebBackend args i).PATH = i.PATH := by
  unfold applyWebBackend; split_ifs <;> rfl

/-- The `info` record `applyLang` leaves behind: the language override is
written exactly when the truthy value passes validation. -/
theorem applyLang_info (env : Env) (args : Args) (extraArgs : List String)
    (i : InfoState) (path : List String) (qlr : Option String)
    (prints : List String) :
    (applyLang env args extraArgs i path qlr prints).info =
      if optTruthy args.lang = true ∧ (args.lang).getD "" ∈ i.SUPPORTED_LANGUAGES then
        { i with CMDLINE_LANGUAGE := some ((args.lang).getD "") }
      else i := by
  unfold applyLang finishLaunch
  split_ifs <;> simp_all

/-- `applyLang` never touches `sys.path`. -/
@[simp]
theorem applyLang_sysPath (env : Env) (args : Args) (extraArgs : List String)
    (i : InfoState) (path : List String) (qlr : Option String)
    (prints : List String) :
    (applyLang env args extraArgs i path qlr prints).sysPath = path := by
  unfold applyLang finishLaunch
  split_ifs <;> rfl

/-- `applyLang` never touches the environment variable value. -/
@[simp]
theorem applyLang_qtLoggingRules (env : Env) (args : Args) (extraArgs : List String)
    (i : InfoState) (path : List String) (qlr : Option String)
    (prints : List String) :
    (applyLang env args extraArgs i path qlr prints).qtLoggingRules = qlr := by
  unfold applyLang finishLaunch
  split_ifs <;> rfl

/-- How `applyLang` ends: exit code -1 on a truthy unsupported language,
otherwise the construction block runs on `buildArgv`. -/
theorem applyLang_outcome (env : Env) (args : Args) (extraArgs : List String)
    (i : InfoState) (path : List String) (qlr : Option String)
    (prints : List String) :
    (applyLang env args extraArgs i path qlr prints).outcome =
      if optTruthy args.lang = true ∧ ¬((args.lang).getD "" ∈ i.SUPPORTED_LANGUAGES) then
        Outcome.exited (-1)
      else constructionStep env (buildArgv env.sysArgv0 extraArgs args.remain) := by
  unfold applyLang finishLaunch
  split_ifs <;> simp_all

/-- What `applyLang` prints after the lines accumulated so far: the
unsupported-language diagnostic on the failing branch, the module-origin line
otherwise. -/
theorem applyLang_printed (env : Env) (args : Args) (extraArgs : List String)
    (i : InfoState) (path : List String) (qlr : Option String)
    (prints : List String) :
    (applyLang env args extraArgs i path qlr prints).printed =
      if optTruthy args.lang = true ∧ ¬((args.lang).getD "" ∈ i.SUPPORTED_LANGUAGES) then
        prints ++ [unsupportedLangMsg ((args.lang).getD "")]
      else prints ++ ["Loaded modules from: " ++ i.PATH] := by
  unfold applyLang finishLaunch
  split_ifs <;> simp_all

/-! Lemmas about the `--path` loop. -/

/-- Each loop iteration only conses resolved entries onto the front of the
search path. -/
theorem processPathEntry_path (env : Env) (path0 : List String) (p : String) :
    ∃ added, (processPathEntry env path0 p).1 = added ++ path0 := by
  rcases hr : env.realpath p with _ | rp
  · exact ⟨[], by simp [processPathEntry, hr]⟩
  · by_cases he : env.pathExists rp
    · exact ⟨[rp], by simp [processPathEntry, hr, he]⟩
    · exact ⟨[], by simp [processPathEntry, hr, he]⟩

/-- The loop as a whole only prepends: whatever `sys.path` held at entry is a
suffix of the result, in its original order. -/
theorem processPaths_append (env : Env) (ps : List String) :
    ∀ path0, ∃ added, (processPaths env ps path0).1 = added ++ path0 := by
  induction ps with
  | nil => exact fun path0 => ⟨[], rfl⟩
  | cons p rest ih =>
      intro path0
      obtain ⟨a1, h1⟩ := processPathEntry_path env path0 p
      obtain ⟨a2, h2⟩ := ih (processPathEntry env path0 p).1
      refine ⟨a2 ++ a1, ?_⟩
      simp only [processPaths]
      rw [h2, h1, List.append_assoc]

/-- Entries already on the search path survive the whole loop. -/
theorem processPaths_mem_preserved (env : Env) (ps : List String)
    (path0 : List String) (x : String) (hx : x ∈ path0) :
    x ∈ (processPaths env ps path0).1 := by
  obtain ⟨added, h⟩ := processPaths_append env ps path0
  rw [h]
  exact List.mem_append_right added hx

/-- An entry that resolves to an existing directory ends up on the search
path. -/
theorem processPaths_mem_added (env : Env) (ps : List String) :
    ∀ path0 q rq, q ∈ ps → env.realpath q = some rq → env.pathExists rq = true →
      rq ∈ (processPaths env ps path0).1 := by
  induction ps with
  | nil => intro path0 q rq hq _ _; cases hq
  | cons p rest ih =>
      intro path0 q rq hq hr he
      rcases List.mem_cons.mp hq with hqp | hqrest
      · subst hqp
        have hstep : (processPathEntry env path0 q).1 = rq :: path0 := by
          simp [processPathEntry, hr, he]
        simp only [processPaths]
        exact processPaths_mem_preserved env rest _ rq (by rw [hstep]; exact List.mem_cons_self rq path0)
      · simp only [processPaths]
        exact ih _ q rq hqrest hr he

/-- The missing-path diagnostic of a nonexistent entry appears among the
loop's printed lines, naming the resolved path. -/
theorem processPaths_missing_printed (env : Env) (ps : List String) :
    ∀ path0 q rq, q ∈ ps → env.realpath q = some rq → env.pathExists rq = false →
      (rq ++ " does not exist") ∈ (processPaths env ps path0).2 := by
  induction ps with
  | nil => intro path0 q rq hq _ _; cases hq
  | cons p rest ih =>
      intro path0 q rq hq hr he
      rcases List.mem_cons.mp hq with hqp | hqrest
      · subst hqp
        have hstep : (processPathEntry env path0 q).2 = [rq ++ " does not exist"] := by
          simp [processPathEntry, hr, he]
        simp only [processPaths]
        rw [List.mem_append, hstep]
        exact Or.inl (List.mem_singleton.mpr rfl)
      · simp only [processPaths]
        rw [List.mem_append]
        exact Or.inr (ih _ q rq hqrest hr he)

/-! Characterization lemmas about `main`, shared by the claim proofs. -/

/-- The final file-channel log level by branch. -/
theorem main_log_file (env : Env) (args : Args) (extraArgs : List String) :
    (main env args extraArgs).info.LOG_LEVEL_FILE =
      if args.version then env.info.LOG_LEVEL_FILE
      else if args.debug || args.debug_file then "DEBUG"
      else env.info.LOG_LEVEL_FILE := by
  by_cases hv : args.version <;> by_cases hl : args.list_languages <;>
    simp [main, hv, hl, applyLang_info] <;> split_ifs <;> simp_all

/-- The final console-channel log level by branch. -/
theorem main_log_console (env : Env) (args : Args) (extraArgs : List String) :
    (main env args extraArgs).info.LOG_LEVEL_CONSOLE =
      if args.version then env.info.LOG_LEVEL_CONSOLE
      else if args.debug || args.debug_console then "DEBUG"
      else env.info.LOG_LEVEL_CONSOLE := by
  by_cases hv : args.version <;> by_cases hl : args.list_languages <;>
    simp [main, hv, hl, applyLang_info] <;> split_ifs <;> simp_all

/-- The final `sys.path` by branch: untouched on the two informational exits,
otherwise exactly what the `--path` loop produced. -/
theorem main_sysPath (env : Env) (args : Args) (extraArgs : List String) :
    (main env args extraArgs).sysPath =
      if args.version then env.sysPath
      else if args.list_languages then env.sysPath
      else (processPaths env (pyPathsOf args) env.sysPath).1 := by
  by_cases hv : args.version <;> by_cases hl : args.list_languages <;>
    simp [main, hv, hl]

/-- The final `info.CMDLINE_LANGUAGE`: assigned exactly when a truthy `--lang`
value passes validation on a run that reaches the language block. -/
theorem main_cmdline_language (env : Env) (args : Args) (extraArgs : List String) :
    (main env args extraArgs).info.CMDLINE_LANGUAGE =
      if args.version = false ∧ args.list_languages = false ∧ optTruthy args.lang = true
          ∧ (args.lang).getD "" ∈ env.info.SUPPORTED_LANGUAGES then
        some ((args.lang).getD "")
      else env.info.CMDLINE_LANGUAGE := by
  by_cases hv : args.version <;> by_cases hl : args.list_languages <;>
    simp [main, hv, hl, applyLang_info] <;> split_ifs <;> simp_all

/-- A run that passes the two informational exits and whose `--lang` value is
absent, empty, or supported ends in the construction block on `buildArgv`. -/
theorem main_outcome_construction (env : Env) (args : Args) (extraArgs : List String)
    (hv : args.version = false) (hl : args.list_languages = false)
    (hok : optTruthy args.lang = false
        ∨ (args.lang).getD "" ∈ env.info.SUPPORTED_LANGUAGES) :
    (main env args extraArgs).outcome =
      constructionStep env (buildArgv env.sysArgv0 extraArgs args.remain) := by
  simp only [main, hv, hl, Bool.false_eq_true, if_false]
  rw [applyLang_outcome]
  rcases hok with hok | hok <;> simp [hok]

/-- The unsupported-language branch: exit code -1, the diagnostic among the
printed lines, the language override untouched, the extended `sys.path`
kept. -/
theorem main_unsupported_lang (env : Env) (args : Args) (extraArgs : List String)
    (l : String) (hv : args.version = false) (hl : args.list_languages = false)
    (hlang : args.lang = some l) (hne : l.isEmpty = false)
    (hmem : l ∉ env.info.SUPPORTED_LANGUAGES) :
    (main env args extraArgs).outcome = Outcome.exited (-1)
    ∧ unsupportedLangMsg l ∈ (main env args extraArgs).printed
    ∧ (main env args extraArgs).info.CMDLINE_LANGUAGE = env.info.CMDLINE_LANGUAGE
    ∧ (main env args extraArgs).sysPath
        = (processPaths env (pyPathsOf args) env.sysPath).1 := by
  have htr : optTruthy args.lang = true := by simp [optTruthy, hlang, hne]
  refine ⟨?_, ?_, ?_, ?_⟩
  · simp only [main, hv, hl, Bool.false_eq_true, if_false]
    rw [applyLang_outcome]
    simp [hlang, hmem, optTruthy, hne]
  · simp only [main, hv, hl, Bool.false_eq_true, if_false]
    rw [applyLang_printed]
    simp [hlang, hmem, optTruthy, hne]
  · rw [main_cmdline_language]
    simp [hlang, hmem]
  · rw [main_sysPath]
    simp [hv, hl]

/-- Whatever the run prints after the `--path` loop, the loop's lines open the
transcript on every branch that executes the loop. -/
theorem main_printed_tail (env : Env) (args : Args) (extraArgs : List String)
    (hv : args.version = false) (hl : args.list_languages = false) :
    ∃ t, (main env args extraArgs).printed =
      (processPaths env (pyPathsOf args) env.sysPath).2 ++ t := by
  simp only [main, hv, hl, Bool.false_eq_true, if_false]
  rw [applyLang_printed]
  split_ifs <;> exact ⟨_, rfl⟩

/-- Every ending of `main` is one of four shapes, decided by the branch
conditions in source order. -/
theorem main_outcome_cases (env : Env) (args : Args) (extraArgs : List String) :
    (main env args extraArgs).outcome =
      if args.version then Outcome.exited 0
      else if args.list_languages then Outcome.exited 0
      else if optTruthy args.lang = true
          ∧ ¬((args.lang).getD "" ∈ env.info.SUPPORTED_LANGUAGES) then
        Outcome.exited (-1)
      else constructionStep env (buildArgv env.sysArgv0 extraArgs args.remain) := by
  by_cases hv : args.version <;> by_cases hl : args.list_languages <;>
    simp [main, hv, hl, applyLang_outcome]

/-! More concrete fixtures for witnesses and counterexamples. -/

/-- `exEnv` with an `OpenShotApp` constructor that always raises. -/
def exEnvFailingConstruct : Env := { exEnv with construct_ok := fun _ => false }

/-- `exEnv` in which no directory exists. -/
def exEnvMissingDir : Env := { exEnv with pathExists := fun _ => false }

/-- `exEnv` in which every directory but `/abs/missing` exists. -/
def exEnvMixedDirs : Env := { exEnv with pathExists := fun s => s != "/abs/missing" }

/-- `--lang zz --path plugdir --test-models --web-backend webkit`. -/
def exArgsBadLang : Args :=
  { lang := some "zz", py_path := some ["plugdir"], modeltest := true,
    web_backend := "webkit" }

/-- `-V` alone. -/
def exArgsVersion : Args := { version := true }

/-- A REMAINDER positional and nothing else. -/
def exArgsRemain : Args := { remain := ["project.osp"] }

/-- `--path mydir` alone. -/
def exArgsOnePath : Args := { py_path := some ["mydir"] }

/-- `--path missing --path plugins`. -/
def exArgsTwoPaths : Args := { py_path := some ["missing", "plugins"] }

/-- `--path pathA --path pathB`. -/
def exArgsPathAB : Args := { py_path := some ["pathA", "pathB"] }

/-- `--lang zz` alone. -/
def exArgsLangOnly : Args := { lang := some "zz" }

/-! The claims. -/

/-- C1, counterexample: with a failing `OpenShotApp` constructor, the
degraded error-reporting path (`app.show_errors()` on the still-`None`
global) itself raises `AttributeError`, contradicting that this path does
not throw when no valid handle exists. -/
theorem show_errors_on_none_throws :
    (main exEnvFailingConstruct {} []).outcome = Outcome.raised "AttributeError" := by
  decide

/-- C1 (amended): if construction of the application handle raises, the
bootstrap does invoke the degraded error-reporting path on the handle instead
of propagating the construction exception; but because the global handle is
still `None` on every such failure, that path itself raises `AttributeError`
rather than completing, on every run that reaches construction. -/
theorem construction_failure_error_path_raises (env : Env) (args : Args)
    (extraArgs : List String)
    (hv : args.version = false) (hl : args.list_languages = false)
    (hok : optTruthy args.lang = false
        ∨ (args.lang).getD "" ∈ env.info.SUPPORTED_LANGUAGES)
    (hfail : env.construct_ok (buildArgv env.sysArgv0 extraArgs args.remain) = false) :
    (main env args extraArgs).outcome = Outcome.raised "AttributeError" := by
  rw [main_outcome_construction env args extraArgs hv hl hok]
  simp [constructionStep, hfail]

/-- C1, witness for the amended theorem at a concrete run. -/
theorem construction_failure_error_path_raises_witness :
    (main exEnvFailingConstruct {} []).outcome = Outcome.raised "AttributeError" :=
  construction_failure_error_path_raises exEnvFailingConstruct {} []
    rfl rfl (Or.inl rfl) rfl

/-- C2, counterexample: an unsupported `--lang zz` does exit with code -1,
but only after the `--path` extension, the model-test flag, the
`QT_LOGGING_RULES` default and the web-backend selection have all been
applied — not before any side effect. -/
theorem unsupported_lang_after_side_effects :
    (main exEnv exArgsBadLang []).outcome = Outcome.exited (-1)
    ∧ (main exEnv exArgsBadLang []).sysPath = "/abs/plugdir" :: exEnv.sysPath
    ∧ (main exEnv exArgsBadLang []).info.MODEL_TEST = true
    ∧ exEnv.info.MODEL_TEST = false
    ∧ (main exEnv exArgsBadLang []).qtLoggingRules = some "qt.modeltest.debug=true"
    ∧ exEnv.qtLoggingRules = none := by
  decide

/-- C2 (amended): an unsupported language override terminates the process
with exit code -1 before the override is stored and before application
construction, but the module-path extension and the earlier config mutations
have already been applied when the check runs and are kept. -/
theorem unsupported_lang_fail_fast_after_config (env : Env) (args : Args)
    (extraArgs : List String) (l : String)
    (hv : args.version = false) (hl : args.list_languages = false)
    (hlang : args.lang = some l) (hne : l.isEmpty = false)
    (hmem : l ∉ env.info.SUPPORTED_LANGUAGES) :
    (main env args extraArgs).outcome = Outcome.exited (-1)
    ∧ (∀ a c, (main env args extraArgs).outcome ≠ Outcome.launched a c)
    ∧ (main env args extraArgs).info.CMDLINE_LANGUAGE = env.info.CMDLINE_LANGUAGE
    ∧ (main env args extraArgs).sysPath
        = (processPaths env (pyPathsOf args) env.sysPath).1 := by
  obtain ⟨h1, _, h3, h4⟩ :=
    main_unsupported_lang env args extraArgs l hv hl hlang hne hmem
  exact ⟨h1, fun a c => by rw [h1]; simp, h3, h4⟩

/-- C2, witness for the amended theorem at a concrete run. -/
theorem unsupported_lang_fail_fast_after_config_witness :
    (main exEnv exArgsBadLang []).outcome = Outcome.exited (-1)
    ∧ (∀ a c, (main exEnv exArgsBadLang []).outcome ≠ Outcome.launched a c)
    ∧ (main exEnv exArgsBadLang []).info.CMDLINE_LANGUAGE
        = exEnv.info.CMDLINE_LANGUAGE
    ∧ (main exEnv exArgsBadLang []).sysPath
        = (processPaths exEnv (pyPathsOf exArgsBadLang) exEnv.sysPath).1 :=
  unsupported_lang_fail_fast_after_config exEnv exArgsBadLang [] "zz"
    rfl rfl rfl rfl (by decide)

/-- C3, counterexample: a `--version` run exits 0 having printed the version,
yet the diagnostics tracing hook has been called (once, at module import),
contradicting that the run performs no call to the tracing hook. -/
theorem version_run_still_calls_tracing_hook :
    (processRun exEnv exArgsVersion []).result.outcome = Outcome.exited 0
    ∧ (processRun exEnv exArgsVersion []).sentryTracingCalls = 1
    ∧ ¬((processRun exEnv exArgsVersion []).sentryTracingCalls = 0) := by
  decide

/-- C3 (amended): with the version flag the run exits 0 after printing
exactly the version string, mutates no module search path, and constructs no
application; the diagnostics tracing hook is nevertheless invoked exactly
once, at module import, before any argument is examined. -/
theorem version_flag_early_exit (env : Env) (args : Args) (extraArgs : List String)
    (hv : args.version = true) :
    (processRun env args extraArgs).result.outcome = Outcome.exited 0
    ∧ (processRun env args extraArgs).result.printed = [env.info.version]
    ∧ (processRun env args extraArgs).result.sysPath = env.sysPath
    ∧ (∀ a c, (processRun env args extraArgs).result.outcome ≠ Outcome.launched a c)
    ∧ (processRun env args extraArgs).sentryTracingCalls = 1 := by
  simp [processRun, main, hv]

/-- C3, witness for the amended theorem at a concrete run. -/
theorem version_flag_early_exit_witness :
    (processRun exEnv exArgsVersion []).result.outcome = Outcome.exited 0
    ∧ (processRun exEnv exArgsVersion []).result.printed = [exEnv.info.version]
    ∧ (processRun exEnv exArgsVersion []).result.sysPath = exEnv.sysPath
    ∧ (∀ a c, (processRun exEnv exArgsVersion []).result.outcome
        ≠ Outcome.launched a c)
    ∧ (processRun exEnv exArgsVersion []).sentryTracingCalls = 1 :=
  version_flag_early_exit exEnv exArgsVersion [] rfl

/-- C4: whenever the application handle is constructed, its argument vector
is exactly the program name, then the unparsed extra arguments, then the
REMAINDER positionals, in that concatenation order. -/
theorem app_argv_concatenation (env : Env) (args : Args) (extraArgs : List String)
    (a : List String) (c : Int)
    (h : (main env args extraArgs).outcome = Outcome.launched a c) :
    a = env.sysArgv0 :: (extraArgs ++ args.remain) := by
  rw [main_outcome_cases] at h
  unfold constructionStep at h
  split_ifs at h
  all_goals simp_all [buildArgv]

/-- C4, witness: a concrete launched run whose argv shows the order. -/
theorem app_argv_concatenation_witness :
    (main exEnv exArgsRemain ["--unknown"]).outcome
        = Outcome.launched ["launch.py", "--unknown", "project.osp"] 0
    ∧ ["launch.py", "--unknown", "project.osp"]
        = exEnv.sysArgv0 :: (["--unknown"] ++ exArgsRemain.remain) :=
  ⟨by decide,
    app_argv_concatenation exEnv exArgsRemain ["--unknown"]
      ["launch.py", "--unknown", "project.osp"] 0 (by decide)⟩

/-- C5: with `--path A --path B`, both resolving to existing directories, the
final search path is the resolved B, then the resolved A, then the original
path — the last-specified path wins. -/
theorem later_path_higher_priority (env : Env) (args : Args) (extraArgs : List String)
    (A B ra rb : String)
    (hv : args.version = false) (hl : args.list_languages = false)
    (hp : args.py_path = some [A, B])
    (hra : env.realpath A = some ra) (hea : env.pathExists ra = true)
    (hrb : env.realpath B = some rb) (heb : env.pathExists rb = true) :
    (main env args extraArgs).sysPath = rb :: ra :: env.sysPath := by
  rw [main_sysPath]
  simp [hv, hl, pyPathsOf, hp, processPaths, processPathEntry, hra, hrb, hea, heb]

/-- C5, witness at a concrete pair of path arguments. -/
theorem later_path_higher_priority_witness :
    (main exEnv exArgsPathAB []).sysPath
        = "/abs/pathB" :: "/abs/pathA" :: exEnv.sysPath :=
  later_path_higher_priority exEnv exArgsPathAB [] "pathA" "pathB"
    "/abs/pathA" "/abs/pathB" rfl rfl rfl rfl rfl rfl rfl

/-- C6: a truthy `--lang` code outside the supported set makes the run exit
with code -1 and print the diagnostic, which contains the code verbatim. -/
theorem unsupported_lang_exit_and_message (env : Env) (args : Args)
    (extraArgs : List String) (l : String)
    (hv : args.version = false) (hl : args.list_languages = false)
    (hlang : args.lang = some l) (hne : l.isEmpty = false)
    (hmem : l ∉ env.info.SUPPORTED_LANGUAGES) :
    (main env args extraArgs).outcome = Outcome.exited (-1)
    ∧ unsupportedLangMsg l ∈ (main env args extraArgs).printed
    ∧ ∃ pre suf, unsupportedLangMsg l = pre ++ l ++ suf := by
  obtain ⟨h1, h2, _, _⟩ :=
    main_unsupported_lang env args extraArgs l hv hl hlang hne hmem
  refine ⟨h1, h2, "Unsupported language " ++ sq, sq ++ "! (See --list-languages)", ?_⟩
  simp only [unsupportedLangMsg, String.append_assoc]

/-- C6, witness at a concrete unsupported code. -/
theorem unsupported_lang_exit_and_message_witness :
    (main exEnv exArgsLangOnly []).outcome = Outcome.exited (-1)
    ∧ unsupportedLangMsg "zz" ∈ (main exEnv exArgsLangOnly []).printed
    ∧ ∃ pre suf, unsupportedLangMsg "zz" = pre ++ "zz" ++ suf :=
  unsupported_lang_exit_and_message exEnv exArgsLangOnly [] "zz"
    rfl rfl rfl rfl (by decide)

/-- C7, counterexample: for the relative entry `mydir`, which resolves to the
nonexistent `/abs/mydir`, the run prints the diagnostic naming the resolved
path and no line naming the path as given; it still proceeds to
construction. -/
theorem missing_path_prints_resolved_not_given :
    "mydir does not exist" ∉ (main exEnvMissingDir exArgsOnePath []).printed
    ∧ "/abs/mydir does not exist" ∈ (main exEnvMissingDir exArgsOnePath []).printed
    ∧ (main exEnvMissingDir exArgsOnePath []).outcome
        = Outcome.launched ["launch.py"] 0 := by
  decide

/-- C7 (amended): a `--path` entry whose resolved directory does not exist is
non-fatal: the run prints a missing-path diagnostic naming the resolved
(realpath) form of the entry, keeps processing the other entries (every entry
resolving to an existing directory still reaches the search path), and still
proceeds to the application-construction block. -/
theorem missing_path_nonfatal (env : Env) (args : Args) (extraArgs : List String)
    (ps : List String) (p rp : String)
    (hv : args.version = false) (hl : args.list_languages = false)
    (hlang : optTruthy args.lang = false)
    (hps : args.py_path = some ps) (hp : p ∈ ps)
    (hr : env.realpath p = some rp) (he : env.pathExists rp = false) :
    (rp ++ " does not exist") ∈ (main env args extraArgs).printed
    ∧ (main env args extraArgs).outcome
        = constructionStep env (buildArgv env.sysArgv0 extraArgs args.remain)
    ∧ ∀ q rq, q ∈ ps → env.realpath q = some rq → env.pathExists rq = true →
        rq ∈ (main env args extraArgs).sysPath := by
  have hpy : pyPathsOf args = ps := by simp [pyPathsOf, hps]
  refine ⟨?_, ?_, ?_⟩
  · obtain ⟨t, ht⟩ := main_printed_tail env args extraArgs hv hl
    rw [ht, hpy]
    exact List.mem_append_left t
      (processPaths_missing_printed env ps env.sysPath p rp hp hr he)
  · exact main_outcome_construction env args extraArgs hv hl (Or.inl hlang)
  · intro q rq hq hrq heq
    rw [main_sysPath]
    simp only [hv, hl, Bool.false_eq_true, if_false, hpy]
    exact processPaths_mem_added env ps env.sysPath q rq hq hrq heq

/-- C7, witness: the missing first entry is reported with its resolved name,
the run reaches construction, and the existing second entry is on the search
path. -/
theorem missing_path_nonfatal_witness :
    ("/abs/missing" ++ " does not exist") ∈ (main exEnvMixedDirs exArgsTwoPaths []).printed
    ∧ (main exEnvMixedDirs exArgsTwoPaths []).outcome
        = constructionStep exEnvMixedDirs
            (buildArgv exEnvMixedDirs.sysArgv0 [] exArgsTwoPaths.remain)
    ∧ ∀ q rq, q ∈ ["missing", "plugins"] → exEnvMixedDirs.realpath q = some rq →
        exEnvMixedDirs.pathExists rq = true →
        rq ∈ (main exEnvMixedDirs exArgsTwoPaths []).sysPath :=
  missing_path_nonfatal exEnvMixedDirs exArgsTwoPaths [] ["missing", "plugins"]
    "missing" "/abs/missing" rfl rfl rfl rfl (by decide) rfl (by decide)

/-- C8: `--debug` alone and `--debug-file --debug-console` together leave the
same file-channel and console-channel log severities, whatever the other
arguments and environment. -/
theorem debug_equiv_file_plus_console (env : Env) (args : Args)
    (extraArgs : List String) :
    (main env { args with debug := true, debug_file := false, debug_console := false }
        extraArgs).info.LOG_LEVEL_FILE
      = (main env { args with debug := false, debug_file := true, debug_console := true }
          extraArgs).info.LOG_LEVEL_FILE
    ∧ (main env { args with debug := true, debug_file := false, debug_console := false }
        extraArgs).info.LOG_LEVEL_CONSOLE
      = (main env { args with debug := false, debug_file := true, debug_console := true }
          extraArgs).info.LOG_LEVEL_CONSOLE := by
  constructor
  · rw [main_log_file, main_log_file]; simp
  · rw [main_log_console, main_log_console]; simp

/-- C9: the `--path` step only prepends — the entire original module search
path survives every run as a suffix, in its original order, whatever the
path arguments. -/
theorem sys_path_only_prepended (env : Env) (args : Args) (extraArgs : List String) :
    ∃ added, (main env args extraArgs).sysPath = added ++ env.sysPath := by
  rw [main_sysPath]
  split_ifs
  · exact ⟨[], rfl⟩
  · exact ⟨[], rfl⟩
  · exact processPaths_append env (pyPathsOf args) env.sysPath

/-- C10: when the supplied `--lang` code is not in the supported set, the
command-line-language setting keeps its prior value — the override is written
only when validation succeeds. -/
theorem unsupported_lang_preserves_override (env : Env) (args : Args)
    (extraArgs : List String) (l : String)
    (hlang : args.lang = some l) (hmem : l ∉ env.info.SUPPORTED_LANGUAGES) :
    (main env args extraArgs).info.CMDLINE_LANGUAGE = env.info.CMDLINE_LANGUAGE := by
  rw [main_cmdline_language]
  simp [hlang, hmem]

/-- C10, witness at a concrete unsupported code. -/
theorem unsupported_lang_preserves_override_witness :
    (main exEnv exArgsLangOnly []).info.CMDLINE_LANGUAGE
        = exEnv.info.CMDLINE_LANGUAGE :=
  unsupported_lang_preserves_override exEnv exArgsLangOnly [] "zz" rfl (by decide)

end LaunchPy
